import Mathlib

/-!
Shallow embedding of the fantasy-soccer scoring and team-validation core.

Sources:
* backend scoring module (`calculateFantasyScore`, `calculateAverageScore`,
  `validateTeamComposition`, `sortPlayers`);
* frontend `utils/calculations.ts` (`getTeamComposition`);
* the alternate route file `src/routes/players.ts` (local `calculateFantasyScore`
  helper, without the zero floor);
* backend `types.ts` (`DEFAULT_SCORING_FORMULA`);
* frontend `context/TeamContext.tsx` (`teamReducer`).

JavaScript numbers are modelled as exact rationals (ℚ); the mock data and the
spec only ever use integer-valued statistics and weights, and the scoring
arithmetic is exact on rationals.  A possibly-`undefined` JavaScript value is
modelled as an `Option`, with `none` also standing for `NaN` where arithmetic
on an undefined operand produces `NaN`.
-/

/-- Per-player season counters (`PlayerStats` in `types.ts`).  `avgRating` is
optional in the source. -/
structure PlayerStats where
  goals : ℚ
  assists : ℚ
  cleanSheets : ℚ
  yellowCards : ℚ
  redCards : ℚ
  appearances : ℚ
  avgRating : Option ℚ := none
deriving DecidableEq, Repr

/-- The five scoring weights (`ScoringFormula` in `types.ts`). -/
structure ScoringFormula where
  goalsMultiplier : ℚ
  assistsMultiplier : ℚ
  cleanSheetsMultiplier : ℚ
  yellowCardsPenalty : ℚ
  redCardsPenalty : ℚ
deriving DecidableEq, Repr

/-- The system-wide default formula `DEFAULT_SCORING_FORMULA` from `types.ts`. -/
def DEFAULT_SCORING_FORMULA : ScoringFormula :=
  { goalsMultiplier := 4
    assistsMultiplier := 3
    cleanSheetsMultiplier := 2
    yellowCardsPenalty := 1
    redCardsPenalty := 3 }

/-- Backend `calculateFantasyScore(stats, formula)`: the weighted sum, floored
at zero by `Math.max(0, score)`. -/
def calculateFantasyScore (stats : PlayerStats) (formula : ScoringFormula) : ℚ :=
  let score :=
    stats.goals * formula.goalsMultiplier +
    stats.assists * formula.assistsMultiplier +
    stats.cleanSheets * formula.cleanSheetsMultiplier -
    stats.yellowCards * formula.yellowCardsPenalty -
    stats.redCards * formula.redCardsPenalty
  max 0 score

/-- Backend `calculateFantasyScore(stats)` with the formula argument omitted:
the TypeScript default parameter supplies `DEFAULT_SCORING_FORMULA`. -/
def calculateFantasyScoreDefault (stats : PlayerStats) : ℚ :=
  calculateFantasyScore stats DEFAULT_SCORING_FORMULA

/-- Backend `calculateAverageScore(stats, formula)`: score per appearance, `0`
when `appearances === 0`. -/
def calculateAverageScore (stats : PlayerStats) (formula : ScoringFormula) : ℚ :=
  if stats.appearances = 0 then 0
  else calculateFantasyScore stats formula / stats.appearances

/-- The local `calculateFantasyScore` helper of the alternate route file
`src/routes/players.ts`: hard-coded default weights and no zero floor. -/
def routeCalculateFantasyScore (stats : PlayerStats) : ℚ :=
  stats.goals * 4 +
  stats.assists * 3 +
  stats.cleanSheets * 2 -
  stats.yellowCards -
  stats.redCards * 3

/-- The stats of concrete scenario 1 of the spec. -/
def statsScenario1 : PlayerStats :=
  { goals := 18, assists := 8, cleanSheets := 0, yellowCards := 3, redCards := 0,
    appearances := 32 }

/-- The stats of concrete scenario 3 of the spec (heavy penalties). -/
def statsScenario3 : PlayerStats :=
  { goals := 0, assists := 0, cleanSheets := 0, yellowCards := 10, redCards := 5,
    appearances := 1 }

/-- C1: for every `PlayerStats` and every `ScoringFormula`, the fantasy score
is non-negative, however large the card penalties are. -/
theorem calculateFantasyScore_nonneg (stats : PlayerStats) (formula : ScoringFormula) :
    0 ≤ calculateFantasyScore stats formula :=
  le_max_left 0 _

/-- C3: with the formula omitted, the default weights (4, 3, 2, 1, 3) are
used, and scenario 1's stats score exactly 93. -/
theorem calculateFantasyScoreDefault_scenario1 :
    DEFAULT_SCORING_FORMULA =
      { goalsMultiplier := 4, assistsMultiplier := 3, cleanSheetsMultiplier := 2,
        yellowCardsPenalty := 1, redCardsPenalty := 3 } ∧
    calculateFantasyScoreDefault statsScenario1 = 93 := by
  refine ⟨rfl, ?_⟩
  norm_num [calculateFantasyScoreDefault, calculateFantasyScore,
    DEFAULT_SCORING_FORMULA, statsScenario1]

/-- C4: the average score is the fantasy score divided by `appearances` when
`appearances > 0`, and `0` when `appearances = 0`; the function is total. -/
theorem calculateAverageScore_spec (stats : PlayerStats) (formula : ScoringFormula) :
    (stats.appearances = 0 → calculateAverageScore stats formula = 0) ∧
    (0 < stats.appearances →
      calculateAverageScore stats formula =
        calculateFantasyScore stats formula / stats.appearances) := by
  constructor
  · intro h
    simp [calculateAverageScore, h]
  · intro h
    simp [calculateAverageScore, ne_of_gt h]

/-- Witness for C4 at concrete inputs: scenario 1 has 32 appearances and
average 93/32; the same stats with 0 appearances give average 0. -/
theorem calculateAverageScore_spec_witness :
    calculateAverageScore { statsScenario1 with appearances := 0 } DEFAULT_SCORING_FORMULA = 0 ∧
    calculateAverageScore statsScenario1 DEFAULT_SCORING_FORMULA =
      calculateFantasyScore statsScenario1 DEFAULT_SCORING_FORMULA / 32 := by
  constructor
  · exact (calculateAverageScore_spec { statsScenario1 with appearances := 0 }
      DEFAULT_SCORING_FORMULA).1 rfl
  · exact (calculateAverageScore_spec statsScenario1 DEFAULT_SCORING_FORMULA).2 (by norm_num [statsScenario1])

/-- C8 counterexample: on scenario 3's stats the route-file helper returns
-25 while the backend module (default formula) returns 0, so the two copies
do not compute the same function. -/
theorem route_backend_disagree :
    routeCalculateFantasyScore statsScenario3 ≠
      calculateFantasyScore statsScenario3 DEFAULT_SCORING_FORMULA := by
  norm_num [routeCalculateFantasyScore, calculateFantasyScore,
    DEFAULT_SCORING_FORMULA, statsScenario3]

/-- C8 amended: the backend score with the default formula is exactly the
route-file helper's raw score floored at zero; in particular the two copies
agree exactly on those stats whose raw score is non-negative. -/
theorem backend_eq_max_zero_route (stats : PlayerStats) :
    calculateFantasyScore stats DEFAULT_SCORING_FORMULA =
      max 0 (routeCalculateFantasyScore stats) := by
  unfold calculateFantasyScore routeCalculateFantasyScore DEFAULT_SCORING_FORMULA
  norm_num

/-- Result shape of `validateTeamComposition`: `{ valid: boolean; errors: string[] }`. -/
structure ValidationResult where
  valid : Bool
  errors : List String
deriving DecidableEq, Repr

/-- Per-position roster counts (`TeamComposition`); counts are non-negative
integers. -/
structure TeamComposition where
  goalkeepers : ℕ
  defenders : ℕ
  midfielders : ℕ
  forwards : ℕ
deriving DecidableEq, Repr

/-- Backend `validateTeamComposition(composition)`: each violated rule pushes
its own message, in source order; `valid` is `errors.length === 0`. -/
def validateTeamComposition (c : TeamComposition) : ValidationResult :=
  let total := c.goalkeepers + c.defenders + c.midfielders + c.forwards
  let errors : List String :=
    (if total ≠ 11 then ["Team must have exactly 11 players, got " ++ toString total] else []) ++
    (if c.goalkeepers < 1 then ["Team must have at least 1 goalkeeper"] else []) ++
    (if c.goalkeepers > 3 then ["Team cannot have more than 3 goalkeepers"] else []) ++
    (if c.defenders < 3 ∨ c.defenders > 6 then ["Team must have between 3 and 6 defenders"] else []) ++
    (if c.midfielders < 2 ∨ c.midfielders > 5 then ["Team must have between 2 and 5 midfielders"] else []) ++
    (if c.forwards < 1 ∨ c.forwards > 3 then ["Team must have between 1 and 3 forwards"] else [])
  { valid := errors.isEmpty, errors := errors }

/-- C2: `valid` holds iff the error list is empty, which happens exactly when
all five composition rules are satisfied; the composition (0,4,4,2) fails
with exactly the two expected messages, in order. -/
theorem validateTeamComposition_spec (c : TeamComposition) :
    ((validateTeamComposition c).valid = true ↔ (validateTeamComposition c).errors = []) ∧
    ((validateTeamComposition c).valid = true ↔
      (c.goalkeepers + c.defenders + c.midfielders + c.forwards = 11 ∧
       1 ≤ c.goalkeepers ∧ c.goalkeepers ≤ 3 ∧
       3 ≤ c.defenders ∧ c.defenders ≤ 6 ∧
       2 ≤ c.midfielders ∧ c.midfielders ≤ 5 ∧
       1 ≤ c.forwards ∧ c.forwards ≤ 3)) ∧
    validateTeamComposition ⟨0, 4, 4, 2⟩ =
      { valid := false,
        errors := ["Team must have exactly 11 players, got 10",
                   "Team must have at least 1 goalkeeper"] } := by
  refine ⟨?_, ?_, ?_⟩
  · simp [validateTeamComposition, List.isEmpty_iff]
  · simp only [validateTeamComposition, List.isEmpty_iff, List.append_eq_nil]
    split_ifs <;> simp_all <;> omega
  · rfl

/-- Player record (`Player` in `types.ts`).  The TypeScript `position` is the
string union GK|DEF|MID|FWD; it is modelled as a string so that out-of-set
runtime values (the data-integrity case of the spec) are expressible. -/
structure Player where
  id : String
  name : String
  club : String
  position : String
  photo : String
  stats : PlayerStats
  fantasyScore : Option ℚ := none
  market_value : Option ℚ := none
deriving DecidableEq, Repr

/-- Frontend `getTeamComposition(players)`: one equality filter per bucket. -/
def getTeamComposition (players : List Player) : TeamComposition :=
  { goalkeepers := (players.filter (fun p => p.position == "GK")).length
    defenders := (players.filter (fun p => p.position == "DEF")).length
    midfielders := (players.filter (fun p => p.position == "MID")).length
    forwards := (players.filter (fun p => p.position == "FWD")).length }

/-- All-zero season counters, used for concrete test players. -/
def zeroStats : PlayerStats :=
  { goals := 0, assists := 0, cleanSheets := 0, yellowCards := 0, redCards := 0,
    appearances := 0 }

/-- Minimal concrete player with the given id and position. -/
def mkSimplePlayer (pid pos : String) : Player :=
  { id := pid, name := "", club := "", position := pos, photo := "", stats := zeroStats }

/-- C7: when every roster member has a recognized position the four counts sum
to the roster length, and a player with an unrecognized position is not
counted in any bucket (prepending it leaves the composition unchanged). -/
theorem getTeamComposition_spec (roster : List Player) (q : Player)
    (hall : ∀ p ∈ roster,
      p.position = "GK" ∨ p.position = "DEF" ∨ p.position = "MID" ∨ p.position = "FWD")
    (hq : ¬(q.position = "GK" ∨ q.position = "DEF" ∨ q.position = "MID" ∨ q.position = "FWD")) :
    ((getTeamComposition roster).goalkeepers + (getTeamComposition roster).defenders +
      (getTeamComposition roster).midfielders + (getTeamComposition roster).forwards
        = roster.length) ∧
    getTeamComposition (q :: roster) = getTeamComposition roster := by
  push_neg at hq
  obtain ⟨hq1, hq2, hq3, hq4⟩ := hq
  constructor
  · induction roster with
    | nil => simp [getTeamComposition]
    | cons p t ih =>
      have hp := hall p (by simp)
      have ht := ih (fun x hx => hall x (by simp [hx]))
      rcases hp with h | h | h | h <;>
        simp_all [getTeamComposition, List.filter_cons] <;> omega
  · simp_all [getTeamComposition, List.filter_cons]

/-- Witness for C7: a one-goalkeeper roster sums to 1, and a player whose
position is the unrecognized string COACH changes no bucket. -/
theorem getTeamComposition_spec_witness :
    ((getTeamComposition [mkSimplePlayer "gk1" "GK"]).goalkeepers +
      (getTeamComposition [mkSimplePlayer "gk1" "GK"]).defenders +
      (getTeamComposition [mkSimplePlayer "gk1" "GK"]).midfielders +
      (getTeamComposition [mkSimplePlayer "gk1" "GK"]).forwards = 1) ∧
    getTeamComposition (mkSimplePlayer "c0" "COACH" :: [mkSimplePlayer "gk1" "GK"]) =
      getTeamComposition [mkSimplePlayer "gk1" "GK"] :=
  getTeamComposition_spec [mkSimplePlayer "gk1" "GK"] (mkSimplePlayer "c0" "COACH")
    (by decide) (by decide)

/-- The sort keys accepted by `sortPlayers`.  The TypeScript union type of the
`sortBy` parameter lists only the five numeric keys; `name` is representable
at runtime, where the switch statement's `default` branch handles it. -/
inductive SortKey where
  | fantasyScore
  | goals
  | assists
  | appearances
  | avgRating
  | name
deriving DecidableEq, Repr

/-- The comparator of the backend `sortPlayers`: each numeric case returns
`key(b) - key(a)` with missing `fantasyScore`/`avgRating` coerced to 0 by
`|| 0`; the `default` branch returns 0. -/
def sortComparator (k : SortKey) (a b : Player) : ℚ :=
  match k with
  | .fantasyScore => b.fantasyScore.getD 0 - a.fantasyScore.getD 0
  | .goals => b.stats.goals - a.stats.goals
  | .assists => b.stats.assists - a.stats.assists
  | .appearances => b.stats.appearances - a.stats.appearances
  | .avgRating => b.stats.avgRating.getD 0 - a.stats.avgRating.getD 0
  | .name => 0

/-- The value `sortPlayers` orders by, descending (0 for the unhandled
`name` key, whose comparator is constantly 0). -/
def sortKeyValue (k : SortKey) (p : Player) : ℚ :=
  match k with
  | .fantasyScore => p.fantasyScore.getD 0
  | .goals => p.stats.goals
  | .assists => p.stats.assists
  | .appearances => p.stats.appearances
  | .avgRating => p.stats.avgRating.getD 0
  | .name => 0

/-- Player `a` may stay in front of player `b` under the comparator: JS
`Array.prototype.sort` (stable, per ES2019) keeps `a` before `b` exactly when
`comparator(a, b) <= 0`. -/
def sortsBefore (k : SortKey) (a b : Player) : Prop :=
  sortComparator k a b ≤ 0

instance (k : SortKey) : DecidableRel (sortsBefore k) :=
  fun _ _ => inferInstanceAs (Decidable (_ ≤ 0))

/-- Backend `sortPlayers(players, sortBy)`: `[...players].sort(comparator)`.
A stable sort under a consistent comparator has a unique result, embedded
here as the stable `List.insertionSort` on the `sortsBefore` preorder. -/
def sortPlayers (players : List Player) (k : SortKey) : List Player :=
  List.insertionSort (sortsBefore k) players

theorem sortComparator_eq_sub (k : SortKey) (a b : Player) :
    sortComparator k a b = sortKeyValue k b - sortKeyValue k a := by
  cases k <;> simp [sortComparator, sortKeyValue]

theorem sortsBefore_iff (k : SortKey) (a b : Player) :
    sortsBefore k a b ↔ sortKeyValue k b ≤ sortKeyValue k a := by
  rw [sortsBefore, sortComparator_eq_sub, sub_nonpos]

instance (k : SortKey) : IsTotal Player (sortsBefore k) :=
  ⟨fun a b => by
    rw [sortsBefore_iff, sortsBefore_iff]
    exact (le_total (sortKeyValue k b) (sortKeyValue k a))⟩

instance (k : SortKey) : IsTrans Player (sortsBefore k) :=
  ⟨fun a b c hab hbc => by
    rw [sortsBefore_iff] at *
    exact le_trans hbc hab⟩

/-- Concrete players of spec scenario 6. -/
def examplePlayerA : Player :=
  { id := "a", name := "a", club := "", position := "FWD", photo := "",
    stats := zeroStats, fantasyScore := some 50 }

/-- Second concrete player of spec scenario 6. -/
def examplePlayerB : Player :=
  { id := "b", name := "b", club := "", position := "FWD", photo := "",
    stats := zeroStats, fantasyScore := some 90 }

/-- Third concrete player of spec scenario 6 (missing fantasy score). -/
def examplePlayerC : Player :=
  { id := "c", name := "c", club := "", position := "FWD", photo := "",
    stats := zeroStats, fantasyScore := none }

/-- C6 counterexample: `sortPlayers` has no `name` case — the switch falls to
the `default` branch, whose comparator is constantly 0 — so sorting by `name`
returns the input order unchanged rather than ascending by name: `[b, a]`
stays `[b, a]` instead of becoming `[a, b]`. -/
theorem sortPlayers_name_unsorted :
    (sortPlayers [examplePlayerB, examplePlayerA] SortKey.name).map Player.name = ["b", "a"] ∧
    sortPlayers [examplePlayerB, examplePlayerA] SortKey.name ≠
      [examplePlayerA, examplePlayerB] := by
  constructor
  · rfl
  · decide

/-- C6 amended: for every list and every key, `sortPlayers` returns a
permutation of its input that is ordered descending by the key's numeric
value (missing `fantasyScore`/`avgRating` treated as 0, constant 0 for the
unhandled `name` key, which therefore keeps input order), every subsequence
already in order is kept in input order (stability), and scenario 6 sorts to
[b, a, c]. -/
theorem sortPlayers_sorted_stable (l : List Player) (k : SortKey) (c : List Player)
    (hc : c.Pairwise (fun a b => sortKeyValue k b ≤ sortKeyValue k a))
    (hcl : List.Sublist c l) :
    (sortPlayers l k).Perm l ∧
    (sortPlayers l k).Pairwise (fun a b => sortKeyValue k b ≤ sortKeyValue k a) ∧
    List.Sublist c (sortPlayers l k) ∧
    sortPlayers [examplePlayerA, examplePlayerB, examplePlayerC] SortKey.fantasyScore =
      [examplePlayerB, examplePlayerA, examplePlayerC] := by
  refine ⟨List.perm_insertionSort _ _, ?_, ?_, ?_⟩
  · exact (List.sorted_insertionSort (sortsBefore k) l).imp
      (fun hab => (sortsBefore_iff k _ _).mp hab)
  · exact List.sublist_insertionSort
      (hc.imp (fun hab => (sortsBefore_iff k _ _).mpr hab)) hcl
  · norm_num [sortPlayers, sortsBefore, sortComparator,
      examplePlayerA, examplePlayerB, examplePlayerC, zeroStats]

/-- Witness for C6 at a concrete input: the singleton subsequence [b] of
scenario 6's list survives sorting as a subsequence. -/
theorem sortPlayers_sorted_stable_witness :
    List.Sublist [examplePlayerB]
      (sortPlayers [examplePlayerA, examplePlayerB, examplePlayerC] SortKey.fantasyScore) :=
  (sortPlayers_sorted_stable [examplePlayerA, examplePlayerB, examplePlayerC]
    SortKey.fantasyScore [examplePlayerB] (by simp) (by decide)).2.2.1

/-- C10: for every list of players and every sort key, the output of
`sortPlayers` is a permutation of the input: same length and the same number
of occurrences of every player. -/
theorem sortPlayers_perm (players : List Player) (k : SortKey) :
    (sortPlayers players k).Perm players ∧
    (sortPlayers players k).length = players.length ∧
    ∀ p : Player, (sortPlayers players k).count p = players.count p := by
  have h := List.perm_insertionSort (sortsBefore k) players
  exact ⟨h, h.length_eq, fun p => h.count_eq p⟩

/-- A JavaScript numeric value that may be `undefined` or `NaN`: `none`
models both `undefined` and `NaN` (arithmetic on either yields `NaN`). -/
def JSNum : Type := Option ℚ
deriving DecidableEq, Repr

/-- JS multiplication of a possibly-undefined operand by a number:
`undefined * w` and `NaN * w` are `NaN`. -/
def jsMul (x : JSNum) (w : ℚ) : JSNum :=
  Option.map (fun q => q * w) x

/-- JS addition: `NaN` on either side propagates. -/
def jsAdd (x y : JSNum) : JSNum :=
  match x with
  | none => none
  | some a =>
    match y with
    | none => none
    | some b => some (a + b)

/-- JS subtraction: `NaN` on either side propagates. -/
def jsSub (x y : JSNum) : JSNum :=
  match x with
  | none => none
  | some a =>
    match y with
    | none => none
    | some b => some (a - b)

/-- JS `Math.max(0, x)`: `Math.max` returns `NaN` when any argument is `NaN`. -/
def jsMax0 (x : JSNum) : JSNum :=
  Option.map (fun q => max 0 q) x

/-- Player stats as they reach `calculateFantasyScore` from an untyped caller:
each numeric field may be absent/`undefined` (`none`). -/
structure PlayerStatsU where
  goals : JSNum
  assists : JSNum
  cleanSheets : JSNum
  yellowCards : JSNum
  redCards : JSNum
  appearances : JSNum
deriving DecidableEq, Repr

/-- A fully-present stats record, viewed as an untyped input. -/
def toStatsU (s : PlayerStats) : PlayerStatsU :=
  { goals := some s.goals, assists := some s.assists, cleanSheets := some s.cleanSheets,
    yellowCards := some s.yellowCards, redCards := some s.redCards,
    appearances := some s.appearances }

/-- Backend `calculateFantasyScore` evaluated under JavaScript number
semantics on possibly-undefined fields: the same expression tree, with
`undefined`/`NaN` propagation. -/
def calculateFantasyScoreU (s : PlayerStatsU) (formula : ScoringFormula) : JSNum :=
  jsMax0
    (jsSub
      (jsSub
        (jsAdd
          (jsAdd (jsMul s.goals formula.goalsMultiplier)
            (jsMul s.assists formula.assistsMultiplier))
          (jsMul s.cleanSheets formula.cleanSheetsMultiplier))
        (jsMul s.yellowCards formula.yellowCardsPenalty))
      (jsMul s.redCards formula.redCardsPenalty))

/-- Stats with `goals` absent and every other stat field 0. -/
def statsMissingGoals : PlayerStatsU :=
  { goals := none, assists := some 0, cleanSheets := some 0,
    yellowCards := some 0, redCards := some 0, appearances := some 0 }

/-- C5 counterexample: with `goals` absent, `calculateFantasyScore` returns
`NaN` (the undefined field contaminates the arithmetic and `Math.max`),
not the numeric score `0` it returns when the field is set to 0. -/
theorem calculateFantasyScoreU_missing_ne_zeroed :
    calculateFantasyScoreU statsMissingGoals DEFAULT_SCORING_FORMULA ≠
      some (calculateFantasyScore { zeroStats with goals := 0 } DEFAULT_SCORING_FORMULA) ∧
    calculateFantasyScoreU statsMissingGoals DEFAULT_SCORING_FORMULA = none := by
  constructor
  · intro h
    exact Option.noConfusion h
  · rfl

/-- C5 amended: an absent/undefined stat field is not treated as 0 — it makes
the whole score `NaN` (while the function still does not raise); only on
fully-present stats does the untyped evaluation agree with the typed one. -/
theorem calculateFantasyScoreU_spec (s : PlayerStatsU) (formula : ScoringFormula)
    (h : s.goals = none ∨ s.assists = none ∨ s.cleanSheets = none ∨
      s.yellowCards = none ∨ s.redCards = none) :
    calculateFantasyScoreU s formula = none ∧
    ∀ t : PlayerStats, calculateFantasyScoreU (toStatsU t) formula =
      some (calculateFantasyScore t formula) := by
  constructor
  · obtain ⟨g, a, c, y, r, ap⟩ := s
    rcases g with _ | g <;> rcases a with _ | a <;> rcases c with _ | c <;>
      rcases y with _ | y <;> rcases r with _ | r <;>
      simp_all [calculateFantasyScoreU, jsMul, jsAdd, jsSub, jsMax0, Option.map]
  · intro t
    simp [calculateFantasyScoreU, toStatsU, jsMul, jsAdd, jsSub, jsMax0,
      calculateFantasyScore, Option.map]

/-- Witness for C5 amended, at the concrete missing-goals input. -/
theorem calculateFantasyScoreU_spec_witness :
    calculateFantasyScoreU statsMissingGoals DEFAULT_SCORING_FORMULA = none ∧
    calculateFantasyScoreU (toStatsU statsScenario1) DEFAULT_SCORING_FORMULA =
      some (calculateFantasyScore statsScenario1 DEFAULT_SCORING_FORMULA) :=
  ⟨(calculateFantasyScoreU_spec statsMissingGoals DEFAULT_SCORING_FORMULA
      (Or.inl rfl)).1,
   (calculateFantasyScoreU_spec statsMissingGoals DEFAULT_SCORING_FORMULA
      (Or.inl rfl)).2 statsScenario1⟩

/-- A saved fantasy team (`FantasyTeam` in the frontend types). -/
structure FantasyTeam where
  id : Option String := none
  name : String
  players : List Player
  totalScore : ℚ
deriving DecidableEq, Repr

/-- The state held by `TeamContext`'s reducer. -/
structure TeamState where
  selectedPlayers : List Player
  teams : List FantasyTeam
  currentTeamName : String
  teamValidation : Option ValidationResult
deriving DecidableEq, Repr

/-- The reducer's initial state. -/
def initialState : TeamState :=
  { selectedPlayers := [], teams := [], currentTeamName := "My Fantasy Team",
    teamValidation := none }

/-- The reducer's action type.  `SAVE_TEAM` ids are produced from
`Date.now()` in the source; the clock reading is modelled as an extra
`now` argument of the action. -/
inductive TeamAction where
  | addPlayer (payload : Player)
  | removePlayer (payload : String)
  | setSelectedPlayers (payload : List Player)
  | clearTeam
  | saveTeam (teamName : String) (totalScore : ℚ) (now : ℕ)
  | deleteTeam (payload : String)
  | setTeamName (payload : String)
  | setTeamValidation (valid : Bool) (errors : List String)
  | reorderPlayers (payload : List Player)
deriving DecidableEq, Repr

/-- `teamReducer` from `TeamContext.tsx`, case by case. -/
def teamReducer (state : TeamState) (action : TeamAction) : TeamState :=
  match action with
  | .addPlayer p =>
    if (state.selectedPlayers.find? (fun q => q.id == p.id)).isSome then state
    else if 11 ≤ state.selectedPlayers.length then state
    else { state with selectedPlayers := state.selectedPlayers ++ [p] }
  | .removePlayer pid =>
    { state with selectedPlayers := state.selectedPlayers.filter (fun p => p.id != pid) }
  | .setSelectedPlayers ps =>
    { state with selectedPlayers := ps.take 11 }
  | .clearTeam =>
    { state with selectedPlayers := [], teamValidation := none }
  | .saveTeam teamName totalScore now =>
    { state with
        teams := state.teams ++
          [{ id := some ("team_" ++ toString now), name := teamName,
             players := state.selectedPlayers, totalScore := totalScore }]
        selectedPlayers := []
        teamValidation := none }
  | .deleteTeam tid =>
    { state with teams := state.teams.filter (fun t => t.id != some tid) }
  | .setTeamName teamName =>
    { state with currentTeamName := teamName }
  | .setTeamValidation valid errors =>
    { state with teamValidation := some { valid := valid, errors := errors } }
  | .reorderPlayers ps =>
    { state with selectedPlayers := ps }

/-- The two roster invariants of the spec: unique player ids and at most
11 selected players. -/
def RosterInv (s : TeamState) : Prop :=
  (s.selectedPlayers.map Player.id).Nodup ∧ s.selectedPlayers.length ≤ 11

/-- Payload conditions under which an action respects the roster invariants:
`SET_SELECTED_PLAYERS` needs a duplicate-free payload (the reducer only
truncates to 11), and `REORDER_PLAYERS` installs its payload unchecked, so
the payload itself must satisfy both invariants. -/
def GoodAction : TeamAction → Prop
  | .setSelectedPlayers ps => (ps.map Player.id).Nodup
  | .reorderPlayers ps => (ps.map Player.id).Nodup ∧ ps.length ≤ 11
  | _ => True

/-- Twelve distinct players, more than a legal roster can hold. -/
def twelvePlayers : List Player :=
  (List.range 12).map (fun i => mkSimplePlayer (toString i) "FWD")

/-- C9 counterexample: the reducer does not guard `REORDER_PLAYERS` or the
uniqueness of `SET_SELECTED_PLAYERS` payloads, so a single dispatch from the
initial state yields 12 selected players, and another yields a duplicated
id. -/
theorem teamReducer_invariant_violations :
    ¬((teamReducer initialState (TeamAction.reorderPlayers twelvePlayers)).selectedPlayers.length ≤ 11) ∧
    ¬(((teamReducer initialState
        (TeamAction.setSelectedPlayers [mkSimplePlayer "x" "FWD", mkSimplePlayer "x" "FWD"])).selectedPlayers.map
          Player.id).Nodup) := by
  constructor
  · have h : (teamReducer initialState
        (TeamAction.reorderPlayers twelvePlayers)).selectedPlayers.length = 12 := by
      simp [teamReducer, twelvePlayers, initialState]
    omega
  · simp [teamReducer, initialState, mkSimplePlayer]

/-- C9 amended: the initial state satisfies both roster invariants, and every
reducer action preserves them provided `SET_SELECTED_PLAYERS` payloads carry
no duplicate ids and `REORDER_PLAYERS` payloads themselves satisfy the
invariants; all remaining actions need no side condition. -/
theorem teamReducer_preserves_inv (s : TeamState) (a : TeamAction)
    (hinv : RosterInv s) (hgood : GoodAction a) :
    RosterInv initialState ∧ RosterInv (teamReducer s a) := by
  obtain ⟨hnd, hlen⟩ := hinv
  refine ⟨⟨by simp [initialState], by simp [initialState]⟩, ?_⟩
  cases a with
  | addPlayer p =>
    by_cases h1 : (s.selectedPlayers.find? (fun q => q.id == p.id)).isSome
    · simpa [teamReducer, h1] using ⟨hnd, hlen⟩
    · by_cases h2 : 11 ≤ s.selectedPlayers.length
      · simpa [teamReducer, h1, h2] using ⟨hnd, hlen⟩
      · have hid : p.id ∉ s.selectedPlayers.map Player.id := by
          rw [Option.isSome_iff_ne_none, not_not, List.find?_eq_none] at h1
          intro hmem
          obtain ⟨q, hq, hqid⟩ := List.mem_map.mp hmem
          exact h1 q hq (by simp [hqid])
        constructor
        · have hcat : (List.map Player.id (s.selectedPlayers ++ [p])).Nodup := by
            rw [List.map_append]
            simp [List.nodup_append, hnd, hid]
          simpa [teamReducer, h1, h2] using hcat
        · simp only [teamReducer, if_neg h1, if_neg h2, List.length_append,
            List.length_singleton]
          omega
  | removePlayer pid =>
    constructor
    · exact hnd.sublist ((List.filter_sublist _).map Player.id)
    · exact le_trans (List.length_filter_le _ _) hlen
  | setSelectedPlayers ps =>
    constructor
    · exact hgood.sublist ((List.take_sublist 11 ps).map Player.id)
    · simp [teamReducer]
  | clearTeam => simp [teamReducer, RosterInv]
  | saveTeam teamName totalScore now => simp [teamReducer, RosterInv]
  | deleteTeam tid => exact ⟨hnd, hlen⟩
  | setTeamName teamName => exact ⟨hnd, hlen⟩
  | setTeamValidation valid errors => exact ⟨hnd, hlen⟩
  | reorderPlayers ps => exact hgood

/-- Witness for C9 amended: adding one player to the empty roster keeps both
invariants. -/
theorem teamReducer_preserves_inv_witness :
    RosterInv initialState ∧
    RosterInv (teamReducer initialState (TeamAction.addPlayer (mkSimplePlayer "p1" "GK"))) :=
  teamReducer_preserves_inv initialState (TeamAction.addPlayer (mkSimplePlayer "p1" "GK"))
    ⟨by simp [initialState], by simp [initialState]⟩ trivial
